import Mathlib

/-!
Verification of the attendance-system backend.

Shallow embedding of the service and controller layers of the
attendance-management server: the attendance ledger
(attendanceService), the capture reconciliation step
(teacherController.checkAttendance), room/camera creation with manual
rollback (roomService), student creation/update (studentService),
and class/subject deletion (classService, subjectService).

Conventions of the embedding:
- MongoDB ObjectId references travelling through request bodies are
  modelled as strings; document ids assigned by the database are
  modelled via a nextId counter where freshness matters.
- JS falsy checks on optional string fields are modelled on
  Option String (missing) plus the empty string.
- Date strings are passed through opaquely: the (student, subject, date)
  uniqueness key compares the date value as given.
- The service layer writes and filters a markedBy recorder field, while
  the AttendanceRecord schema file declares a required teacher field and
  no markedBy path. The request-level ledger model keeps the rows as the
  service builds them (markedBy); the schema-level consequences of this
  mismatch for the two ledger write paths — strict-mode path stripping,
  required-field and enum validation, and the strict populate check —
  are modelled separately in the final section.
- Errors carry the message and the optional statusCode attached by the
  source (a plain JS Error has no statusCode field).
-/

/-- A service-layer error: message plus the optional statusCode the
source attaches to the Error object. -/
structure AppError where
  message : String
  statusCode : Option Nat
deriving Repr, DecidableEq

/-- Replaces the first element satisfying p by applying f, as a single
findOneAndUpdate-style document update. -/
def updateFirst {α : Type} (p : α → Bool) (f : α → α) : List α → List α
  | [] => []
  | x :: xs => if p x then f x :: xs else x :: updateFirst p f xs

/-! ## Attendance ledger (attendanceService, AttendanceRecord model) -/

/-- One element of the request body attendanceList: a student ObjectId
string and a status string. -/
structure AttListItem where
  _id : String
  status : String
deriving Repr, DecidableEq

/-- A persisted AttendanceRecord document. -/
structure StoredRecord where
  _id : Nat
  student : String
  subject : String
  markedBy : String
  date : String
  time : String
  status : String
deriving Repr, DecidableEq

/-- The AttendanceRecord collection with its id counter. The schema
declares a unique compound index on (student, subject, date). -/
structure Ledger where
  nextId : Nat
  records : List StoredRecord
deriving Repr, DecidableEq

/-- A document prepared for insertion (no _id yet). -/
structure AttendanceInsert where
  student : String
  subject : String
  markedBy : String
  date : String
  time : String
  status : String
deriving Repr, DecidableEq

/-- Whether the ledger already holds a record with the given
(student, subject, date) key: the unique compound index. -/
def hasDuplicate (led : Ledger) (student subject date : String) : Bool :=
  led.records.any fun r =>
    r.student == student && r.subject == subject && r.date == date

/-- Result of one insertMany call. -/
structure InsertManyResult where
  ledger : Ledger
  inserted : List StoredRecord
  dupFailed : Bool
deriving Repr, DecidableEq

/-- insertMany with ordered false: every document whose unique key is
free at its insertion time is inserted; a duplicate-key failure on one
document does not block the others, it only raises the duplicate-key
error (code 11000) after the batch. -/
def insertManyUnordered (led : Ledger) : List AttendanceInsert → InsertManyResult
  | [] => { ledger := led, inserted := [], dupFailed := false }
  | d :: ds =>
    if hasDuplicate led d.student d.subject d.date then
      let r := insertManyUnordered led ds
      { ledger := r.ledger, inserted := r.inserted, dupFailed := true }
    else
      let doc : StoredRecord :=
        { _id := led.nextId, student := d.student, subject := d.subject,
          markedBy := d.markedBy, date := d.date, time := d.time,
          status := d.status }
      let r := insertManyUnordered
        { nextId := led.nextId + 1, records := led.records ++ [doc] } ds
      { ledger := r.ledger, inserted := doc :: r.inserted,
        dupFailed := r.dupFailed }

/-- Arguments of attendanceService.saveAttendanceRecords. -/
structure SaveArgs where
  attendanceList : List AttListItem
  subjectId : String
  teacherId : String
  date : String
  time : String
deriving Repr, DecidableEq

/-- Step 1 of saveAttendanceRecords: map the frontend list to the
database schema. -/
def recordsToInsert (a : SaveArgs) : List AttendanceInsert :=
  a.attendanceList.map fun item =>
    { student := item._id, subject := a.subjectId, markedBy := a.teacherId,
      date := a.date, time := a.time, status := item.status }

/-- The 409 conflict raised when the unique index is violated. -/
def duplicateAttendanceError : AppError :=
  { message := "Attendance has already been marked for this subject on this date.",
    statusCode := some 409 }

/-- attendanceService.saveAttendanceRecords: batch insert, mapping a
duplicate-key failure (code 11000) to a 409 conflict. The unordered
insert has already written the non-duplicate rows when the error is
raised. -/
def saveAttendanceRecords (a : SaveArgs) (led : Ledger) :
    Except AppError (List StoredRecord) × Ledger :=
  let docs := recordsToInsert a
  if docs.length = 0 then
    (.error { message := "No attendance records to save.", statusCode := none },
     led)
  else
    let r := insertManyUnordered led docs
    if r.dupFailed then
      (.error duplicateAttendanceError, r.ledger)
    else
      (.ok r.inserted, r.ledger)

/-- A concrete ledger holding one record, used by the concrete
witnesses. -/
def c1Led : Ledger :=
  { nextId := 1,
    records := [{ _id := 0, student := "s1", subject := "sub", markedBy := "t",
                  date := "8/11/2025", time := "9:00", status := "Present" }] }

/-- A concrete batch with one row whose (student, subject, date) triple
is already recorded and one fresh row: the failing input of C1. -/
def c1Args : SaveArgs :=
  { attendanceList := [{ _id := "s1", status := "Present" },
                       { _id := "s2", status := "Absent" }],
    subjectId := "sub", teacherId := "t", date := "8/11/2025", time := "9:00" }


/-! ## Per-class summary (attendanceService.getAttendanceSummary) -/

/-- The fields of a Student document visible to the summary query. The
source schema names the class reference field class, a Lean keyword,
rendered here as classRef. -/
structure StudentInfo where
  _id : String
  name : String
  rollNo : String
  classRef : String
deriving Repr, DecidableEq

/-- One row of the summary returned for a student. -/
structure SummaryEntry where
  _id : String
  name : String
  rollNo : String
  present : Nat
  absent : Nat
  totalClasses : Nat
  presentPercentage : String
  absentPercentage : String
deriving Repr, DecidableEq

/-- JS Number.prototype.toFixed(1) applied to the exact value
p / t * 100, modelled with exact rational rounding to one decimal
(round half up); t is positive at every call site. -/
def toFixed1 (p t : Nat) : String :=
  let scaled := (2000 * p + t) / (2 * t)
  toString (scaled / 10) ++ "." ++ toString (scaled % 10)

/-- The summary row computed for one student from the aggregation
output. The stats map holds an entry for a student exactly when that
student has at least one matched record, and the computed percentages
are used only when present + absent is positive; otherwise the
explicit-zero defaults are kept. -/
def summaryRow (matched : List StoredRecord) (s : StudentInfo) : SummaryEntry :=
  let rows := matched.filter fun r => r.student == s._id
  let presentCount := (rows.filter fun r => r.status == "Present").length
  let absentCount := (rows.filter fun r => r.status == "Absent").length
  let total := presentCount + absentCount
  if rows.isEmpty || total == 0 then
    { _id := s._id, name := s.name, rollNo := s.rollNo,
      present := 0, absent := 0, totalClasses := 0,
      presentPercentage := "0.0", absentPercentage := "0.0" }
  else
    { _id := s._id, name := s.name, rollNo := s.rollNo,
      present := presentCount, absent := absentCount, totalClasses := total,
      presentPercentage := toFixed1 presentCount total,
      absentPercentage := toFixed1 absentCount total }

/-- attendanceService.getAttendanceSummary: load the class roster,
aggregate matched ledger rows grouped by student, and left-join the
full roster against the grouped counts. -/
def getAttendanceSummary (students : List StudentInfo) (led : Ledger)
    (classId subjectId : String) : Except AppError (List SummaryEntry) :=
  let allStudents := students.filter fun s => s.classRef == classId
  if allStudents.isEmpty then
    .error { message := "No students found for this class.", statusCode := some 404 }
  else
    let studentIds := allStudents.map StudentInfo._id
    let matched := led.records.filter fun r =>
      r.subject == subjectId && studentIds.contains r.student
    .ok (allStudents.map (summaryRow matched))

theorem filter_status_partition (l : List StoredRecord)
    (h : ∀ r ∈ l, r.status = "Present" ∨ r.status = "Absent") :
    (l.filter fun r => r.status == "Present").length
      + (l.filter fun r => r.status == "Absent").length = l.length := by
  induction l with
  | nil => simp
  | cons r rs ih =>
    have hrest : ∀ x ∈ rs, x.status = "Present" ∨ x.status = "Absent" :=
      fun x hx => h x (by simp [hx])
    have hih := ih hrest
    rcases h r (by simp) with hr | hr <;>
      simp [List.filter_cons, hr,
        (by decide : (("Present" : String) == "Absent") = false),
        (by decide : (("Absent" : String) == "Present") = false)] <;>
      omega

theorem summaryRow_spec (matched : List StoredRecord) (s : StudentInfo)
    (hst : ∀ r ∈ matched, r.status = "Present" ∨ r.status = "Absent") :
    (summaryRow matched s)._id = s._id ∧
    (summaryRow matched s).name = s.name ∧
    (summaryRow matched s).rollNo = s.rollNo ∧
    (summaryRow matched s).present + (summaryRow matched s).absent
      = (matched.filter fun r => r.student == s._id).length ∧
    ((matched.filter fun r => r.student == s._id).length = 0 →
      (summaryRow matched s).present = 0 ∧
      (summaryRow matched s).absent = 0 ∧
      (summaryRow matched s).totalClasses = 0 ∧
      (summaryRow matched s).presentPercentage = "0.0" ∧
      (summaryRow matched s).absentPercentage = "0.0") := by
  have hstr : ∀ r ∈ matched.filter (fun r => r.student == s._id),
      r.status = "Present" ∨ r.status = "Absent" :=
    fun r hr => hst r (List.mem_of_mem_filter hr)
  have hpart := filter_status_partition _ hstr
  by_cases hcond : ((matched.filter fun r => r.student == s._id).isEmpty
      || ((matched.filter fun r => r.student == s._id).filter
            (fun r => r.status == "Present")).length
          + ((matched.filter fun r => r.student == s._id).filter
              (fun r => r.status == "Absent")).length == 0) = true
  · have hzero : (matched.filter fun r => r.student == s._id).length = 0 := by
      rcases Bool.or_eq_true_iff.mp hcond with hx | hx
      · rw [List.isEmpty_iff] at hx
        simp [hx]
      · rw [← hpart]
        simpa using hx
    have he : summaryRow matched s =
        { _id := s._id, name := s.name, rollNo := s.rollNo,
          present := 0, absent := 0, totalClasses := 0,
          presentPercentage := "0.0", absentPercentage := "0.0" } := by
      simp only [summaryRow, hcond, if_true]
    rw [he]
    exact ⟨rfl, rfl, rfl, by simp [hzero], fun _ => ⟨rfl, rfl, rfl, rfl, rfl⟩⟩
  · have hcondf := eq_false_of_ne_true hcond
    have he : summaryRow matched s =
        { _id := s._id, name := s.name, rollNo := s.rollNo,
          present := ((matched.filter fun r => r.student == s._id).filter
            (fun r => r.status == "Present")).length,
          absent := ((matched.filter fun r => r.student == s._id).filter
            (fun r => r.status == "Absent")).length,
          totalClasses := ((matched.filter fun r => r.student == s._id).filter
              (fun r => r.status == "Present")).length
            + ((matched.filter fun r => r.student == s._id).filter
              (fun r => r.status == "Absent")).length,
          presentPercentage := toFixed1
            ((matched.filter fun r => r.student == s._id).filter
              (fun r => r.status == "Present")).length
            (((matched.filter fun r => r.student == s._id).filter
                (fun r => r.status == "Present")).length
              + ((matched.filter fun r => r.student == s._id).filter
                (fun r => r.status == "Absent")).length),
          absentPercentage := toFixed1
            ((matched.filter fun r => r.student == s._id).filter
              (fun r => r.status == "Absent")).length
            (((matched.filter fun r => r.student == s._id).filter
                (fun r => r.status == "Present")).length
              + ((matched.filter fun r => r.student == s._id).filter
                (fun r => r.status == "Absent")).length) } := by
      simp only [summaryRow, hcondf, Bool.false_eq_true, if_false]
    rw [he]
    refine ⟨rfl, rfl, rfl, hpart, ?_⟩
    intro h0
    exfalso
    apply hcond
    have hnil : (matched.filter fun r => r.student == s._id) = [] :=
      List.eq_nil_of_length_eq_zero h0
    simp [hnil]

/-- Claim C6: for every per-class summary, each student appears with
present + absent equal to the number of ledger rows for that student
and subject, and every student of the class with zero ledger rows still
appears in the output with present 0, absent 0, totalClasses 0, and
both percentages the string 0.0, rather than being omitted. -/
theorem attendance_summary_counts
    (students : List StudentInfo) (led : Ledger) (classId subjectId : String)
    (henum : ∀ r ∈ led.records, r.status = "Present" ∨ r.status = "Absent")
    (hne : (students.filter fun s => s.classRef == classId) ≠ []) :
    ∃ L, getAttendanceSummary students led classId subjectId = .ok L ∧
      L.length = (students.filter fun s => s.classRef == classId).length ∧
      ∀ s ∈ students.filter (fun s => s.classRef == classId),
        ∃ e ∈ L, e._id = s._id ∧ e.name = s.name ∧ e.rollNo = s.rollNo ∧
          e.present + e.absent
            = (led.records.filter fun r =>
                r.subject == subjectId && r.student == s._id).length ∧
          ((led.records.filter fun r =>
              r.subject == subjectId && r.student == s._id).length = 0 →
            e.present = 0 ∧ e.absent = 0 ∧ e.totalClasses = 0 ∧
            e.presentPercentage = "0.0" ∧ e.absentPercentage = "0.0") := by
  have hemp : (students.filter fun s => s.classRef == classId).isEmpty = false := by
    rcases hx : (students.filter fun s => s.classRef == classId) with _ | _
    · exact absurd hx hne
    · rw [hx]
      rfl
  refine ⟨((students.filter fun s => s.classRef == classId).map
      (summaryRow (led.records.filter fun r =>
        r.subject == subjectId
          && (((students.filter fun s => s.classRef == classId).map
                StudentInfo._id).contains r.student)))), ?_, by simp, ?_⟩
  · simp only [getAttendanceSummary, hemp, Bool.false_eq_true, if_false]
  · intro s hs
    have hsid : s._id ∈ (students.filter fun s => s.classRef == classId).map
        StudentInfo._id := List.mem_map_of_mem _ hs
    have hstm : ∀ r ∈ led.records.filter (fun r =>
        r.subject == subjectId
          && (((students.filter fun s => s.classRef == classId).map
                StudentInfo._id).contains r.student)),
        r.status = "Present" ∨ r.status = "Absent" :=
      fun r hr => henum r (List.mem_of_mem_filter hr)
    have hrows : ((led.records.filter fun r =>
        r.subject == subjectId
          && (((students.filter fun s => s.classRef == classId).map
                StudentInfo._id).contains r.student)).filter
          (fun r => r.student == s._id))
        = led.records.filter (fun r =>
            r.subject == subjectId && r.student == s._id) := by
      rw [List.filter_filter]
      apply List.filter_congr
      intro r _
      by_cases hstu : (r.student == s._id) = true
      · have heq : r.student = s._id := by simpa using hstu
        have hcont : ((students.filter fun s => s.classRef == classId).map
            StudentInfo._id).contains r.student = true := by
          rw [heq]
          exact List.elem_eq_true_of_mem hsid
        simp only [hstu, hcont, Bool.true_and, Bool.and_true]
      · simp only [Bool.not_eq_true] at hstu
        simp only [hstu, Bool.false_and, Bool.and_false]
    have hspec := summaryRow_spec (led.records.filter fun r =>
        r.subject == subjectId
          && (((students.filter fun s => s.classRef == classId).map
                StudentInfo._id).contains r.student)) s hstm
    rw [hrows] at hspec
    exact ⟨_, List.mem_map_of_mem _ hs, hspec⟩

/-- A concrete input for the C6 witness: a class of two students, one
with two ledger rows for the subject, one with none. -/
def c6Students : List StudentInfo :=
  [{ _id := "s1", name := "Alice", rollNo := "R1", classRef := "c1" },
   { _id := "s2", name := "Bob", rollNo := "R2", classRef := "c1" }]

/-- Ledger for the C6 witness. -/
def c6Led : Ledger :=
  { nextId := 2,
    records := [{ _id := 0, student := "s1", subject := "sub", markedBy := "t",
                  date := "d1", time := "9:00", status := "Present" },
                { _id := 1, student := "s1", subject := "sub", markedBy := "t",
                  date := "d2", time := "9:00", status := "Absent" }] }

/-- Witness for C6 at the concrete input. -/
theorem attendance_summary_counts_witness :
    ∃ L, getAttendanceSummary c6Students c6Led "c1" "sub" = .ok L ∧
      L.length = (c6Students.filter fun s => s.classRef == "c1").length ∧
      ∀ s ∈ c6Students.filter (fun s => s.classRef == "c1"),
        ∃ e ∈ L, e._id = s._id ∧ e.name = s.name ∧ e.rollNo = s.rollNo ∧
          e.present + e.absent
            = (c6Led.records.filter fun r =>
                r.subject == "sub" && r.student == s._id).length ∧
          ((c6Led.records.filter fun r =>
              r.subject == "sub" && r.student == s._id).length = 0 →
            e.present = 0 ∧ e.absent = 0 ∧ e.totalClasses = 0 ∧
            e.presentPercentage = "0.0" ∧ e.absentPercentage = "0.0") :=
  attendance_summary_counts c6Students c6Led "c1" "sub" (by decide) (by decide)

/-! ## Capture reconciliation (teacherController.checkAttendance) -/

/-- A student document as loaded for recognition (name, rollNo,
faceEmbeddings). Embedding vector entries are abstracted to integers;
the claims depend only on the presence and identity of the vector. -/
structure RosterStudent where
  _id : String
  name : String
  rollNo : String
  faceEmbeddings : List Int
deriving Repr, DecidableEq

/-- The recognizer response: counts plus the recognized roll
identifiers. -/
structure MlRecognition where
  faces_detected : Nat
  unrecognized_faces : Nat
  recognized_usns : List String
deriving Repr, DecidableEq

/-- One row of the proposal sent back for review. -/
structure AttendanceEntry where
  _id : String
  name : String
  rollNo : String
  status : String
deriving Repr, DecidableEq

/-- The stats block of the checkAttendance response. -/
structure CheckStats where
  faces_detected : Nat
  unrecognized_faces : Nat
  students_present : Nat
  students_absent : Nat
deriving Repr, DecidableEq

/-- The checkAttendance response body. -/
structure CheckResponse where
  stats : CheckStats
  attendanceList : List AttendanceEntry
deriving Repr, DecidableEq

/-- The reconciliation of one student against the recognized set:
Present exactly when the roll identifier is recognized. -/
def reconcileEntry (recognizedUsns : List String) (s : RosterStudent) :
    AttendanceEntry :=
  { _id := s._id, name := s.name, rollNo := s.rollNo,
    status := if recognizedUsns.contains s.rollNo then "Present" else "Absent" }

/-- teacherController.checkAttendance: snapshot, roster load, embedding
check, recognizer call, reconciliation. The snapshot fetch and the
recognizer call are the two outbound effects and enter as outcome
parameters; the attendance ledger is threaded through to record that
this step performs no ledger write. The recognized identifiers are
collected into a set, modelled by dedup. -/
def checkAttendance (snapshot : Except String String)
    (allStudents : List RosterStudent) (ml : Except AppError MlRecognition)
    (led : Ledger) : Except AppError CheckResponse × Ledger :=
  match snapshot with
  | .error msg =>
    (.error { message := "Failed to get camera snapshot: " ++ msg,
              statusCode := some 500 }, led)
  | .ok _imageName =>
    if allStudents.isEmpty then
      (.error { message := "No students found for this class.",
                statusCode := some 404 }, led)
    else if (allStudents.filter fun s => !s.faceEmbeddings.isEmpty).isEmpty then
      (.error { message := "No students in this class have registered face data.",
                statusCode := some 400 }, led)
    else
      match ml with
      | .error e => (.error e, led)
      | .ok mlResult =>
        let recognizedUsns := mlResult.recognized_usns.dedup
        (.ok { stats :=
                { faces_detected := mlResult.faces_detected,
                  unrecognized_faces := mlResult.unrecognized_faces,
                  students_present := recognizedUsns.length,
                  students_absent := allStudents.length - recognizedUsns.length },
               attendanceList := allStudents.map (reconcileEntry recognizedUsns) },
         led)

/-- Claim C2: the reconciliation step returns one proposal entry per
student of the whole class, Present exactly when the roll identifier is
in the recognized set and Absent otherwise, and the step writes nothing
to the attendance ledger (the ledger component of the state is returned
unchanged on every path). -/
theorem checkAttendance_reconciliation
    (img : String) (allStudents : List RosterStudent) (ml : MlRecognition)
    (led : Ledger)
    (hne : allStudents ≠ [])
    (hemb : ∃ s ∈ allStudents, s.faceEmbeddings ≠ []) :
    (∀ snapshot mlr, (checkAttendance snapshot allStudents mlr led).2 = led) ∧
    ∃ resp, (checkAttendance (.ok img) allStudents (.ok ml) led).1 = .ok resp ∧
      resp.attendanceList.length = allStudents.length ∧
      ∀ s ∈ allStudents, ∃ e ∈ resp.attendanceList,
        e._id = s._id ∧ e.name = s.name ∧ e.rollNo = s.rollNo ∧
        (e.status = "Present" ↔ s.rollNo ∈ ml.recognized_usns) ∧
        (e.status = "Absent" ↔ s.rollNo ∉ ml.recognized_usns) := by
  have h1 : allStudents.isEmpty = false := by
    cases allStudents with
    | nil => exact absurd rfl hne
    | cons a l => rfl
  have h2 : (allStudents.filter fun s => !s.faceEmbeddings.isEmpty).isEmpty
      = false := by
    obtain ⟨s0, hs0, hs0e⟩ := hemb
    have hmem : s0 ∈ allStudents.filter fun s => !s.faceEmbeddings.isEmpty := by
      rw [List.mem_filter]
      exact ⟨hs0, by simpa using hs0e⟩
    rcases hx : allStudents.filter fun s => !s.faceEmbeddings.isEmpty with _ | _
    · rw [hx] at hmem
      simp at hmem
    · rw [hx]
      rfl
  constructor
  · intro snap mlr
    cases snap with
    | error m => rfl
    | ok i =>
      simp only [checkAttendance]
      split
      · rfl
      · split
        · rfl
        · cases mlr <;> rfl
  · refine ⟨{ stats :=
                { faces_detected := ml.faces_detected,
                  unrecognized_faces := ml.unrecognized_faces,
                  students_present := ml.recognized_usns.dedup.length,
                  students_absent :=
                    allStudents.length - ml.recognized_usns.dedup.length },
              attendanceList :=
                allStudents.map (reconcileEntry ml.recognized_usns.dedup) },
      ?_, by simp, ?_⟩
    · simp only [checkAttendance, h1, h2, Bool.false_eq_true, if_false]
    · intro s hs
      refine ⟨reconcileEntry ml.recognized_usns.dedup s,
        List.mem_map_of_mem _ hs, rfl, rfl, rfl, ?_, ?_⟩
      · by_cases hc : ml.recognized_usns.dedup.contains s.rollNo
        · have : s.rollNo ∈ ml.recognized_usns := by
            rw [← List.mem_dedup]
            simpa using hc
          simp [reconcileEntry, hc, this]
        · have : s.rollNo ∉ ml.recognized_usns := by
            rw [← List.mem_dedup]
            simpa using hc
          simp [reconcileEntry, hc, this]
      · by_cases hc : ml.recognized_usns.dedup.contains s.rollNo
        · have : s.rollNo ∈ ml.recognized_usns := by
            rw [← List.mem_dedup]
            simpa using hc
          simp [reconcileEntry, hc, this]
        · have : s.rollNo ∉ ml.recognized_usns := by
            rw [← List.mem_dedup]
            simpa using hc
          simp [reconcileEntry, hc, this]

/-- Roster for the C2 witness: S1 has an embedding, S2 has none; this
is the class CS-5 scenario from the spec. -/
def c2Roster : List RosterStudent :=
  [{ _id := "s1", name := "S1", rollNo := "USN1", faceEmbeddings := [1, 2] },
   { _id := "s2", name := "S2", rollNo := "USN2", faceEmbeddings := [] }]

/-- Recognizer output for the C2 witness: only S1 was recognized. -/
def c2Ml : MlRecognition :=
  { faces_detected := 1, unrecognized_faces := 0, recognized_usns := ["USN1"] }

/-- Witness for C2 at the concrete input. -/
theorem checkAttendance_reconciliation_witness :
    (∀ snapshot mlr, (checkAttendance snapshot c2Roster mlr c1Led).2 = c1Led) ∧
    ∃ resp, (checkAttendance (.ok "img") c2Roster (.ok c2Ml) c1Led).1 = .ok resp ∧
      resp.attendanceList.length = c2Roster.length ∧
      ∀ s ∈ c2Roster, ∃ e ∈ resp.attendanceList,
        e._id = s._id ∧ e.name = s.name ∧ e.rollNo = s.rollNo ∧
        (e.status = "Present" ↔ s.rollNo ∈ c2Ml.recognized_usns) ∧
        (e.status = "Absent" ↔ s.rollNo ∉ c2Ml.recognized_usns) :=
  checkAttendance_reconciliation "img" c2Roster c2Ml c1Led (by decide)
    ⟨{ _id := "s1", name := "S1", rollNo := "USN1", faceEmbeddings := [1, 2] },
     by decide, by decide⟩

/-! ## Confirmation endpoint (teacherController.markAttendance) -/

/-- mongoose.isValidObjectId for a string argument: a 24-character hex
string. (The 12-byte buffer form cannot arrive through a JSON body.) -/
def isValidObjectId (s : String) : Bool :=
  s.length == 24 && s.toList.all fun c =>
    c.isDigit || ('a' ≤ c && c ≤ 'f') || ('A' ≤ c && c ≤ 'F')

/-- The markAttendance request body. Absent fields are none; JS also
treats empty strings as missing, which no claim distinguishes. -/
structure MarkAttendanceBody where
  attendanceList : Option (List AttListItem)
  subjectId : Option String
  date : Option String
  time : Option String
deriving Repr, DecidableEq

/-- The HTTP outcome of markAttendance: the 201 success payload or a
failure status and message. -/
inductive MarkResult where
  | success (count : Nat) (records : List StoredRecord)
  | failure (status : Nat) (message : String)
deriving Repr, DecidableEq

/-- teacherController.markAttendance: teacher check, missing-field
check, shape check on the first list element only, then the batch
insert; a service error keeps its statusCode (default 500). -/
def markAttendance (body : MarkAttendanceBody) (profileId : Option String)
    (led : Ledger) : MarkResult × Ledger :=
  match profileId with
  | none =>
    (.failure 401 "Not authorized, no teacher profile associated with this user.",
     led)
  | some teacherId =>
    match body.attendanceList, body.subjectId, body.date, body.time with
    | some attendanceList, some subjectId, some date, some time =>
      match attendanceList with
      | [] =>
        (.failure 400
          "Attendance list must be a non-empty array of \x7b _id, status \x7d objects.",
         led)
      | first :: rest =>
        if !(isValidObjectId first._id)
            || !(["Present", "Absent"].contains first.status) then
          (.failure 400
            "Attendance list must be a non-empty array of \x7b _id, status \x7d objects.",
           led)
        else
          match saveAttendanceRecords
              { attendanceList := first :: rest, subjectId := subjectId,
                teacherId := teacherId, date := date, time := time } led with
          | (.ok savedRecords, led') =>
            (.success savedRecords.length savedRecords, led')
          | (.error e, led') => (.failure (e.statusCode.getD 500) e.message, led')
    | _, _, _, _ =>
      (.failure 400 "Missing required fields: attendanceList, subjectId, date, time",
       led)

/-- Claim C8 (implicit): the shape validation of markAttendance
inspects only the first element of attendanceList. Whenever the list is
non-empty and its first element carries a valid object id and a status
in Present/Absent, the 400 shape check passes and the entire list,
including arbitrary later elements, is handed to the batch insert of
the ledger. -/
theorem markAttendance_head_validation
    (led : Ledger) (teacherId subjectId date time : String)
    (first : AttListItem) (rest : List AttListItem)
    (hvalid : isValidObjectId first._id = true)
    (hstatus : first.status = "Present" ∨ first.status = "Absent") :
    markAttendance
      { attendanceList := some (first :: rest), subjectId := some subjectId,
        date := some date, time := some time } (some teacherId) led
      = (match saveAttendanceRecords
            { attendanceList := first :: rest, subjectId := subjectId,
              teacherId := teacherId, date := date, time := time } led with
         | (.ok savedRecords, led') =>
           (.success savedRecords.length savedRecords, led')
         | (.error e, led') =>
           (.failure (e.statusCode.getD 500) e.message, led')) := by
  have hcont : (["Present", "Absent"].contains first.status) = true := by
    rcases hstatus with h | h <;> rw [h] <;> decide
  have hc : (!(isValidObjectId first._id)
      || !(["Present", "Absent"].contains first.status)) = false := by
    rw [hvalid, hcont]
    rfl
  simp only [markAttendance, hc, Bool.false_eq_true, if_false]

/-- Body for the C8 witness: the first element is well-formed, the
second has an invalid id and a status outside Present/Absent. -/
def c8Body : MarkAttendanceBody :=
  { attendanceList := some
      [{ _id := "507f1f77bcf86cd799439011", status := "Present" },
       { _id := "zz", status := "Skipped" }],
    subjectId := some "sub", date := some "8/11/2025", time := some "9:00" }

/-- Witness for C8 at the concrete input: the malformed second element
is forwarded to the batch insert together with the first. -/
theorem markAttendance_head_validation_witness :
    markAttendance c8Body (some "t") c1Led
      = (match saveAttendanceRecords
            { attendanceList :=
                [{ _id := "507f1f77bcf86cd799439011", status := "Present" },
                 { _id := "zz", status := "Skipped" }],
              subjectId := "sub", teacherId := "t", date := "8/11/2025",
              time := "9:00" } c1Led with
         | (.ok savedRecords, led') =>
           (.success savedRecords.length savedRecords, led')
         | (.error e, led') =>
           (.failure (e.statusCode.getD 500) e.message, led')) :=
  markAttendance_head_validation c1Led "t" "sub" "8/11/2025" "9:00"
    { _id := "507f1f77bcf86cd799439011", status := "Present" }
    [{ _id := "zz", status := "Skipped" }]
    (by decide) (Or.inl rfl)

/-! ## Rooms and cameras (roomService.addRoom) -/

/-- A Room document. -/
structure RoomDoc where
  _id : Nat
  name : String
  description : Option String
deriving Repr, DecidableEq

/-- A Camera document; cameraId and cameraAccessLink each carry a
unique index. -/
structure CameraDoc where
  _id : Nat
  cameraId : String
  cameraAccessLink : String
  room : Nat
deriving Repr, DecidableEq

/-- A camera object of the request body; either field may be missing. -/
structure CameraInput where
  cameraId : Option String
  cameraAccessLink : Option String
deriving Repr, DecidableEq

/-- The Room and Camera collections with a shared id counter. -/
structure RoomStore where
  nextId : Nat
  rooms : List RoomDoc
  cameras : List CameraDoc
deriving Repr, DecidableEq

/-- JS falsiness of an optional string field: missing or empty. -/
def strFalsy : Option String → Bool
  | none => true
  | some s => s.isEmpty

/-- The per-camera validation: cameraId and cameraAccessLink are
required. -/
def cameraInvalid (c : CameraInput) : Bool :=
  strFalsy c.cameraId || strFalsy c.cameraAccessLink

/-- The duplicate query findOne with an or-filter on cameraId and
cameraAccessLink. -/
def camMatches (c : CameraInput) (cam : CameraDoc) : Bool :=
  some cam.cameraId == c.cameraId || some cam.cameraAccessLink == c.cameraAccessLink

/-- Whether some stored camera collides with the submitted camera on a
unique field. -/
def cameraDupOf (stored : List CameraDoc) (c : CameraInput) : Bool :=
  stored.any (camMatches c)

/-- The camera-creation loop of addRoom: validate, pre-check
uniqueness, save, and track the created ids for rollback. An error
carries the message together with the store and created ids at the
moment of failure. -/
def createCamerasLoop (roomId : Nat) :
    RoomStore → List Nat → List CameraInput →
      Except (String × RoomStore × List Nat) (RoomStore × List Nat)
  | st, created, [] => .ok (st, created)
  | st, created, c :: cs =>
    if cameraInvalid c then
      .error
        ("Invalid camera data: \"cameraId\" and \"cameraAccessLink\" are required.",
         st, created)
    else
      match st.cameras.find? (camMatches c) with
      | some existingCam =>
        .error
          ((if some existingCam.cameraId == c.cameraId then
              "A camera with this cameraId already exists."
            else
              "A camera with this cameraAccessLink already exists."),
           st, created)
      | none =>
        let savedCamera : CameraDoc :=
          { _id := st.nextId, cameraId := c.cameraId.getD "",
            cameraAccessLink := c.cameraAccessLink.getD "", room := roomId }
        createCamerasLoop roomId
          { nextId := st.nextId + 1, rooms := st.rooms,
            cameras := st.cameras ++ [savedCamera] }
          (created ++ [savedCamera._id]) cs

/-- Store component of a loop outcome. -/
def loopOutStore :
    Except (String × RoomStore × List Nat) (RoomStore × List Nat) → RoomStore
  | .ok (st, _) => st
  | .error (_, st, _) => st

/-- Created-ids component of a loop outcome. -/
def loopOutIds :
    Except (String × RoomStore × List Nat) (RoomStore × List Nat) → List Nat
  | .ok (_, ids) => ids
  | .error (_, _, ids) => ids

/-- roomService.addRoom: pre-check the room name, save the room, run
the camera loop, and on any failure perform the manual compensating
deletes of the created cameras and the created room before re-raising
the error. -/
def addRoom (st : RoomStore) (name : String) (description : Option String)
    (cameras : Option (List CameraInput)) : Except String RoomDoc × RoomStore :=
  if st.rooms.any (fun r => r.name == name) then
    (.error "A room with this name already exists.", st)
  else
    let savedRoom : RoomDoc :=
      { _id := st.nextId, name := name, description := description }
    let st1 : RoomStore :=
      { nextId := st.nextId + 1, rooms := st.rooms ++ [savedRoom],
        cameras := st.cameras }
    match createCamerasLoop savedRoom._id st1 [] (cameras.getD []) with
    | .ok (st2, _createdIds) => (.ok savedRoom, st2)
    | .error (msg, st2, createdIds) =>
      (.error msg,
       { nextId := st2.nextId,
         rooms := st2.rooms.filter (fun r => !(r._id == savedRoom._id)),
         cameras := st2.cameras.filter (fun c => !(createdIds.contains c._id)) })

theorem createCamerasLoop_spec (cs : List CameraInput) :
    ∀ (st : RoomStore) (roomId : Nat) (created : List Nat),
      ∃ newCams : List CameraDoc,
        loopOutStore (createCamerasLoop roomId st created cs)
          = { nextId := st.nextId + newCams.length, rooms := st.rooms,
              cameras := st.cameras ++ newCams } ∧
        loopOutIds (createCamerasLoop roomId st created cs)
          = created ++ newCams.map CameraDoc._id ∧
        (∀ c ∈ newCams, st.nextId ≤ c._id) := by
  induction cs with
  | nil =>
    intro st roomId created
    exact ⟨[], by simp [createCamerasLoop, loopOutStore],
      by simp [createCamerasLoop, loopOutIds], by simp⟩
  | cons c cs ih =>
    intro st roomId created
    by_cases hinv : cameraInvalid c = true
    · exact ⟨[], by simp [createCamerasLoop, hinv, loopOutStore],
        by simp [createCamerasLoop, hinv, loopOutIds], by simp⟩
    · cases hfind : st.cameras.find? (camMatches c) with
      | some cam =>
        exact ⟨[], by simp [createCamerasLoop, hinv, hfind, loopOutStore],
          by simp [createCamerasLoop, hinv, hfind, loopOutIds], by simp⟩
      | none =>
        obtain ⟨newCams, h1, h2, h3⟩ := ih
          { nextId := st.nextId + 1, rooms := st.rooms,
            cameras := st.cameras ++
              [{ _id := st.nextId, cameraId := c.cameraId.getD "",
                 cameraAccessLink := c.cameraAccessLink.getD "",
                 room := roomId }] }
          roomId
          (created ++ [st.nextId])
        refine ⟨{ _id := st.nextId, cameraId := c.cameraId.getD "",
                  cameraAccessLink := c.cameraAccessLink.getD "",
                  room := roomId } :: newCams, ?_, ?_, ?_⟩
        · simp only [createCamerasLoop, hinv, Bool.false_eq_true, if_false,
            hfind]
          rw [h1]
          have hnext : st.nextId + 1 + newCams.length
              = st.nextId + (newCams.length + 1) := by omega
          simp [hnext, List.append_assoc]
        · simp only [createCamerasLoop, hinv, Bool.false_eq_true, if_false,
            hfind]
          rw [h2]
          simp
        · intro c' hc'
          rcases List.mem_cons.mp hc' with hc' | hc'
        
          · rw [hc']
          · have := h3 c' hc'
            simp only at this
            omega

theorem createCamerasLoop_error (cs : List CameraInput) :
    ∀ (st : RoomStore) (roomId : Nat) (created : List Nat)
      (base : List CameraDoc),
      (∀ cam ∈ base, cam ∈ st.cameras) →
      (∃ c ∈ cs, cameraInvalid c = true ∨ cameraDupOf base c = true) →
      ∃ e, createCamerasLoop roomId st created cs = .error e := by
  induction cs with
  | nil =>
    intro st roomId created base _ h
    simp at h
  | cons c cs ih =>
    intro st roomId created base hbase h
    by_cases hinv : cameraInvalid c = true
    · refine ⟨("Invalid camera data: \"cameraId\" and \"cameraAccessLink\" are required.",
        st, created), ?_⟩
      simp only [createCamerasLoop, hinv, if_true]
    · cases hfind : st.cameras.find? (camMatches c) with
      | some cam =>
        refine ⟨((if some cam.cameraId == c.cameraId then
            "A camera with this cameraId already exists."
          else
            "A camera with this cameraAccessLink already exists."),
          st, created), ?_⟩
        simp only [createCamerasLoop, eq_false_of_ne_true hinv,
          Bool.false_eq_true, if_false, hfind]
      | none =>
        obtain ⟨c0, hc0, hbad0⟩ := h
        have hc0cs : c0 ∈ cs := by
          rcases List.mem_cons.mp hc0 with hd | hd
          · subst hd
            rcases hbad0 with hb | hb
            · exact absurd hb hinv
            · exfalso
              simp only [cameraDupOf, List.any_eq_true] at hb
              obtain ⟨cam, hcam, hm⟩ := hb
              exact absurd hm (by
                have := List.find?_eq_none.mp hfind cam (hbase cam hcam)
                simpa using this)
          · exact hd
        simp only [createCamerasLoop, hinv, Bool.false_eq_true, if_false,
          hfind]
        apply ih _ roomId _ base
        · intro cam hcam
          simp [hbase cam hcam]
        · exact ⟨c0, hc0cs, hbad0⟩

/-- Claim C3: whenever some submitted camera is invalid (missing
cameraId or cameraAccessLink) or duplicates a stored camera on a unique
field, addRoom fails, the error is re-raised, and the compensating
deletes leave neither the created room nor any camera created earlier
in the call in the store: the room and camera collections are exactly
as before the call. The well-formedness hypotheses say every stored id
is below the id counter. -/
theorem addRoom_rollback
    (st : RoomStore) (name : String) (description : Option String)
    (cams : List CameraInput)
    (hwfR : ∀ r ∈ st.rooms, r._id < st.nextId)
    (hwfC : ∀ c ∈ st.cameras, c._id < st.nextId)
    (hbad : ∃ c ∈ cams, cameraInvalid c = true ∨ cameraDupOf st.cameras c = true) :
    (∃ msg, (addRoom st name description (some cams)).1 = .error msg) ∧
    (addRoom st name description (some cams)).2.rooms = st.rooms ∧
    (addRoom st name description (some cams)).2.cameras = st.cameras := by
  by_cases hdup : st.rooms.any (fun r => r.name == name) = true
  · refine ⟨⟨"A room with this name already exists.", ?_⟩, ?_, ?_⟩ <;>
      simp [addRoom, hdup]
  · have hdupf := eq_false_of_ne_true hdup
    obtain ⟨e, he⟩ := createCamerasLoop_error cams
      { nextId := st.nextId + 1,
        rooms := st.rooms
          ++ [{ _id := st.nextId, name := name, description := description }],
        cameras := st.cameras }
      st.nextId [] st.cameras (fun cam h => h) hbad
    rcases e with ⟨msg, st2, createdIds⟩
    obtain ⟨newCams, h1, h2, h3⟩ := createCamerasLoop_spec cams
      { nextId := st.nextId + 1,
        rooms := st.rooms
          ++ [{ _id := st.nextId, name := name, description := description }],
        cameras := st.cameras }
      st.nextId []
    rw [he] at h1 h2
    simp only [loopOutStore] at h1
    simp only [loopOutIds, List.nil_append] at h2
    simp only at h1 h3
    have haddr : addRoom st name description (some cams)
        = (.error msg,
           { nextId := st2.nextId,
             rooms := st2.rooms.filter (fun r => !(r._id == st.nextId)),
             cameras :=
               st2.cameras.filter (fun c => !(createdIds.contains c._id)) }) := by
      simp only [addRoom, hdupf, Bool.false_eq_true, if_false, Option.getD_some]
      rw [he]
    rw [haddr]
    refine ⟨⟨msg, rfl⟩, ?_, ?_⟩
    · rw [h1]
      simp only [List.filter_append]
      have hA : st.rooms.filter (fun r => !(r._id == st.nextId)) = st.rooms := by
        rw [List.filter_eq_self]
        intro r hr
        have := hwfR r hr
        simp
        omega
      rw [hA]
      simp
    · rw [h1, h2]
      simp only [List.filter_append]
      have hA : st.cameras.filter
          (fun c => !((newCams.map CameraDoc._id).contains c._id))
          = st.cameras := by
        rw [List.filter_eq_self]
        intro c hc
        have hlt := hwfC c hc
        have hnm : c._id ∉ newCams.map CameraDoc._id := by
          intro hmem
          obtain ⟨c', hc', hcid⟩ := List.mem_map.mp hmem
          have := h3 c' hc'
          omega
        simpa using hnm
      have hB : newCams.filter
          (fun c => !((newCams.map CameraDoc._id).contains c._id)) = [] := by
        rw [List.filter_eq_nil_iff]
        intro c hc
        have : c._id ∈ newCams.map CameraDoc._id := List.mem_map_of_mem _ hc
        simp
        exact ⟨c, hc, rfl⟩
      rw [hA, hB]
      simp

/-- The store for the C3 witness: one existing room and one existing
camera. -/
def c3Store : RoomStore :=
  { nextId := 2,
    rooms := [{ _id := 0, name := "Lab", description := none }],
    cameras := [{ _id := 1, cameraId := "cam-1",
                  cameraAccessLink := "http://cam-1/stream", room := 0 }] }

/-- Submitted cameras for the C3 witness: the first is fresh, the
second duplicates the stored cameraId. -/
def c3Cams : List CameraInput :=
  [{ cameraId := some "cam-2", cameraAccessLink := some "http://cam-2/stream" },
   { cameraId := some "cam-1", cameraAccessLink := some "http://other/stream" }]

/-- Witness for C3 at the concrete input: the room and the first,
successfully created camera are rolled back. -/
theorem addRoom_rollback_witness :
    (∃ msg, (addRoom c3Store "Lab B" none (some c3Cams)).1 = .error msg) ∧
    (addRoom c3Store "Lab B" none (some c3Cams)).2.rooms = c3Store.rooms ∧
    (addRoom c3Store "Lab B" none (some c3Cams)).2.cameras = c3Store.cameras :=
  addRoom_rollback c3Store "Lab B" none c3Cams (by decide) (by decide) (by decide)

/-! ## Identity and roster (User, Student, Class; studentService) -/

/-- A User document (the identity store). The bcrypt pre-save hook is
modelled by an injective tagging function on the plain password. -/
structure UserDoc where
  _id : Nat
  username : String
  email : String
  password : String
  role : String
  profileId : Option Nat
deriving Repr, DecidableEq

/-- A Student profile document. The source schema names the class
reference field class, a Lean keyword, rendered here as classRef. -/
structure StudentDoc where
  _id : Nat
  user : Nat
  name : String
  rollNo : String
  classRef : Nat
  phoneNumber : Option String
  faceEmbeddings : List Int
deriving Repr, DecidableEq

/-- A Class document; semester is optional. -/
structure ClassDoc where
  _id : Nat
  name : String
  classCode : String
  semester : Option String
deriving Repr, DecidableEq

/-- The collections touched by the student service, with a shared id
counter. -/
structure SDb where
  nextId : Nat
  users : List UserDoc
  students : List StudentDoc
  classes : List ClassDoc
deriving Repr, DecidableEq

/-- The bcrypt pre-save hashing, abstracted to an injective tag. -/
def hashPassword (plain : String) : String := "bcrypt$" ++ plain

/-- The JSON body of a successful recognizer response; faceEmbedding
may be absent. -/
structure MlData where
  faceEmbedding : Option (List Int)
deriving Repr, DecidableEq

/-- Outcome of the axios call to the recognizer: a 2xx response (whose
body may be missing or lack faceEmbedding), an HTTP error response, no
response at all, or a request-setup failure. -/
inductive MlOutcome where
  | ok (data : Option MlData)
  | httpError (status : Nat) (detail : Option String)
  | noResponse
  | setupFailure (message : String)
deriving Repr, DecidableEq

/-- The embedding fetch of createNewStudent with its error wrapping. A
2xx response without a faceEmbedding raises the invalid-data error,
which the surrounding catch re-wraps through its final branch (the
custom Error has neither response nor request), yielding the
setup-failed message with status 500. -/
def mlCallResult : MlOutcome → Except AppError (List Int)
  | .ok data =>
    match data with
    | some d =>
      match d.faceEmbedding with
      | some emb => .ok emb
      | none =>
        .error { message := "Axios request setup failed: ML service returned invalid data.",
                 statusCode := some 500 }
    | none =>
      .error { message := "Axios request setup failed: ML service returned invalid data.",
               statusCode := some 500 }
  | .httpError status detail =>
    .error { message := "ML Service Error: " ++ detail.getD "Unknown ML Error",
             statusCode := some (if status = 0 then 500 else status) }
  | .noResponse =>
    .error { message := "ML service is not responding.", statusCode := some 503 }
  | .setupFailure m =>
    .error { message := "Axios request setup failed: " ++ m, statusCode := some 500 }

/-- The data handed to createNewStudent by the controller. -/
structure NewStudentData where
  name : String
  classCode : String
  rollNo : String
  semester : Option String
  username : String
  email : String
  password : String
  phoneNumber : Option String
  imageFilename : String
deriving Repr, DecidableEq

/-- Rendering of the semester value inside the not-found message (a JS
template literal prints undefined for a missing value). -/
def semesterText : Option String → String
  | some s => s
  | none => "undefined"

/-- studentService.createNewStudent: class lookup, duplicate
pre-checks, the recognizer call (before any write), then the
non-atomic saves: User, Student, and the profileId back-link. -/
def createNewStudent (db : SDb) (d : NewStudentData) (ml : MlOutcome) :
    Except AppError (UserDoc × StudentDoc) × SDb :=
  match db.classes.find? (fun c =>
      c.classCode == d.classCode && c.semester == d.semester) with
  | none =>
    (.error { message := "Class with code " ++ d.classCode ++ " and semester "
                ++ semesterText d.semester ++ " not found.",
              statusCode := some 404 }, db)
  | some studentClass =>
    if db.users.any (fun u => u.email == d.email) then
      (.error { message := "User with this email already exists.",
                statusCode := some 400 }, db)
    else if db.users.any (fun u => u.username == d.username) then
      (.error { message := "Username is already taken.",
                statusCode := some 400 }, db)
    else if db.students.any (fun s => s.rollNo == d.rollNo) then
      (.error { message := "Student with this Roll No already exists.",
                statusCode := some 400 }, db)
    else
      match mlCallResult ml with
      | .error e => (.error e, db)
      | .ok faceEmbeddings =>
        let createdUser : UserDoc :=
          { _id := db.nextId, username := d.username, email := d.email,
            password := hashPassword d.password, role := "Student",
            profileId := none }
        let createdStudent : StudentDoc :=
          { _id := db.nextId + 1, user := createdUser._id, name := d.name,
            rollNo := d.rollNo, classRef := studentClass._id,
            phoneNumber := d.phoneNumber, faceEmbeddings := faceEmbeddings }
        let linkedUser : UserDoc :=
          { createdUser with profileId := some createdStudent._id }
        (.ok (linkedUser, createdStudent),
         { nextId := db.nextId + 2,
           users := db.users ++ [linkedUser],
           students := db.students ++ [createdStudent],
           classes := db.classes })

/-- Claim C4: the recognizer is consulted before any identity or
profile write; whenever the recognizer call fails (no response, an
error response, or a response without the faceEmbedding field), the
call aborts with an error and the whole store, in particular the User
and Student collections, is unchanged. -/
theorem createNewStudent_ml_failure_aborts
    (db : SDb) (d : NewStudentData) (ml : MlOutcome)
    (hml : ∃ e, mlCallResult ml = .error e) :
    (∃ e, (createNewStudent db d ml).1 = .error e) ∧
    (createNewStudent db d ml).2 = db := by
  obtain ⟨e, he⟩ := hml
  unfold createNewStudent
  cases hfind : db.classes.find? (fun c =>
      c.classCode == d.classCode && c.semester == d.semester) with
  | none => exact ⟨⟨_, rfl⟩, rfl⟩
  | some studentClass =>
    by_cases h1 : db.users.any (fun u => u.email == d.email) = true
    · simp only [h1, if_true]
      exact ⟨⟨_, rfl⟩, trivial⟩
    · simp only [eq_false_of_ne_true h1, Bool.false_eq_true, if_false]
      by_cases h2 : db.users.any (fun u => u.username == d.username) = true
      · simp only [h2, if_true]
        exact ⟨⟨_, rfl⟩, trivial⟩
      · simp only [eq_false_of_ne_true h2, Bool.false_eq_true, if_false]
        by_cases h3 : db.students.any (fun s => s.rollNo == d.rollNo) = true
        · simp only [h3, if_true]
          exact ⟨⟨_, rfl⟩, trivial⟩
        · simp only [eq_false_of_ne_true h3, Bool.false_eq_true, if_false]
          rw [he]
          exact ⟨⟨e, rfl⟩, rfl⟩

/-- Store for the C4 witness. -/
def c4Db : SDb :=
  { nextId := 10,
    users := [{ _id := 0, username := "admin", email := "admin@x.y",
                password := "bcrypt$pw", role := "Admin", profileId := none }],
    students := [],
    classes := [{ _id := 1, name := "CS", classCode := "CS-5",
                  semester := some "5" }] }

/-- Request data for the C4 witness. -/
def c4Data : NewStudentData :=
  { name := "New Kid", classCode := "CS-5", rollNo := "R9",
    semester := some "5", username := "newkid", email := "kid@x.y",
    password := "secret", phoneNumber := none, imageFilename := "R9.jpg" }

/-- Witness for C4 at a concrete input: the recognizer does not
respond, creation aborts, and the store is unchanged. -/
theorem createNewStudent_ml_failure_aborts_witness :
    (∃ e, (createNewStudent c4Db c4Data .noResponse).1 = .error e) ∧
    (createNewStudent c4Db c4Data .noResponse).2 = c4Db :=
  createNewStudent_ml_failure_aborts c4Db c4Data .noResponse
    ⟨{ message := "ML service is not responding.", statusCode := some 503 }, rfl⟩

/-- The embedding fetch of updateStudentById with its own error
wrapping: every failure, including the invalid-data throw re-caught by
the same catch, surfaces as an ML Service Error; the status is taken
from the error response when there is one, else 500. -/
def mlCallResultUpdate : MlOutcome → Except AppError (List Int)
  | .ok data =>
    match data with
    | some d =>
      match d.faceEmbedding with
      | some emb => .ok emb
      | none =>
        .error { message := "ML Service Error: ML service call failed",
                 statusCode := some 500 }
    | none =>
      .error { message := "ML Service Error: ML service call failed",
               statusCode := some 500 }
  | .httpError status detail =>
    .error { message := "ML Service Error: " ++ detail.getD "ML service call failed",
             statusCode := some (if status = 0 then 500 else status) }
  | .noResponse =>
    .error { message := "ML Service Error: ML service call failed",
             statusCode := some 500 }
  | .setupFailure _ =>
    .error { message := "ML Service Error: ML service call failed",
             statusCode := some 500 }

/-- The update payload forwarded by the admin controller. password and
rollNo are forwarded but never read by the service. -/
structure UpdateStudentData where
  name : Option String
  classCode : Option String
  rollNo : Option String
  semester : Option String
  username : Option String
  email : Option String
  password : Option String
  phoneNumber : Option String
  imageFilename : Option String
deriving Repr, DecidableEq

/-- Step 2a of updateStudentById: email change with the
taken-by-another-user check. -/
def applyEmailUpdate (db : SDb) (selfId : Nat) (email : Option String)
    (u : UserDoc) : Except AppError UserDoc :=
  match email with
  | none => .ok u
  | some e =>
    if db.users.any (fun x => x.email == e && !(x._id == selfId)) then
      .error { message := "This email is already taken by another user.",
               statusCode := some 400 }
    else .ok { u with email := e }

/-- Step 2b of updateStudentById: username change with the
taken-by-another-user check. -/
def applyUsernameUpdate (db : SDb) (selfId : Nat) (username : Option String)
    (u : UserDoc) : Except AppError UserDoc :=
  match username with
  | none => .ok u
  | some n =>
    if db.users.any (fun x => x.username == n && !(x._id == selfId)) then
      .error { message := "This username is already taken by another user.",
               statusCode := some 400 }
    else .ok { u with username := n }

/-- Step 3 of updateStudentById: class change when both classCode and
semester are provided. -/
def applyClassUpdate (db : SDb) (classCode semester : Option String)
    (s : StudentDoc) : Except AppError StudentDoc :=
  match classCode, semester with
  | some cc, some sem =>
    match db.classes.find? (fun c =>
        c.classCode == cc && c.semester == some sem) with
    | none =>
      .error { message := "Class with code " ++ cc ++ " and semester " ++ sem
                 ++ " not found.",
               statusCode := some 404 }
    | some studentClass => .ok { s with classRef := studentClass._id }
  | _, _ => .ok s

/-- Step 4 of updateStudentById: refresh the embeddings when a new
image was uploaded. -/
def applyImageUpdate (ml : MlOutcome) (imageFilename : Option String)
    (s : StudentDoc) : Except AppError StudentDoc :=
  match imageFilename with
  | none => .ok s
  | some _ =>
    match mlCallResultUpdate ml with
    | .error e => .error e
    | .ok emb => .ok { s with faceEmbeddings := emb }

/-- Step 5 of updateStudentById: the remaining simple fields. -/
def applyNamePhone (name phoneNumber : Option String) (s : StudentDoc) :
    StudentDoc :=
  let s1 := match name with
    | some n => { s with name := n }
    | none => s
  match phoneNumber with
  | some p => { s1 with phoneNumber := some p }
  | none => s1

/-- studentService.updateStudentById: find the student and its user,
apply the guarded field updates in source order, then save both
documents. Every error path leaves the store untouched; the saves
replace the found documents. -/
def updateStudentById (db : SDb) (studentId : Nat) (d : UpdateStudentData)
    (ml : MlOutcome) : Except AppError (UserDoc × StudentDoc) × SDb :=
  match db.students.find? (fun s => s._id == studentId) with
  | none => (.error { message := "Student not found.", statusCode := some 404 }, db)
  | some student0 =>
    match db.users.find? (fun u => u._id == student0.user) with
    | none =>
      (.error { message := "Associated user not found.", statusCode := some 404 },
       db)
    | some user0 =>
      match applyEmailUpdate db user0._id d.email user0 with
      | .error e => (.error e, db)
      | .ok user1 =>
        match applyUsernameUpdate db user0._id d.username user1 with
        | .error e => (.error e, db)
        | .ok user2 =>
          match applyClassUpdate db d.classCode d.semester student0 with
          | .error e => (.error e, db)
          | .ok student1 =>
            match applyImageUpdate ml d.imageFilename student1 with
            | .error e => (.error e, db)
            | .ok student2 =>
              let student3 := applyNamePhone d.name d.phoneNumber student2
              (.ok (user2, student3),
               { db with
                 students :=
                   updateFirst (fun s => s._id == studentId)
                     (fun _ => student3) db.students,
                 users :=
                   updateFirst (fun u => u._id == student0.user)
                     (fun _ => user2) db.users })

theorem applyEmailUpdate_frame (db : SDb) (selfId : Nat)
    (email : Option String) (u u' : UserDoc)
    (h : applyEmailUpdate db selfId email u = .ok u') :
    u'._id = u._id ∧ u'.password = u.password := by
  cases email with
  | none =>
    simp only [applyEmailUpdate] at h
    cases h
    exact ⟨rfl, rfl⟩
  | some e =>
    simp only [applyEmailUpdate] at h
    by_cases hd : db.users.any (fun x => x.email == e && !(x._id == selfId)) = true
    · rw [hd] at h
      simp at h
    · rw [eq_false_of_ne_true hd] at h
      simp only [Bool.false_eq_true, if_false, Except.ok.injEq] at h
      rw [← h]
      exact ⟨rfl, rfl⟩

theorem applyUsernameUpdate_frame (db : SDb) (selfId : Nat)
    (username : Option String) (u u' : UserDoc)
    (h : applyUsernameUpdate db selfId username u = .ok u') :
    u'._id = u._id ∧ u'.password = u.password := by
  cases username with
  | none =>
    simp only [applyUsernameUpdate] at h
    cases h
    exact ⟨rfl, rfl⟩
  | some n =>
    simp only [applyUsernameUpdate] at h
    by_cases hd : db.users.any (fun x => x.username == n && !(x._id == selfId)) = true
    · rw [hd] at h
      simp at h
    · rw [eq_false_of_ne_true hd] at h
      simp only [Bool.false_eq_true, if_false, Except.ok.injEq] at h
      rw [← h]
      exact ⟨rfl, rfl⟩

theorem applyClassUpdate_frame (db : SDb) (classCode semester : Option String)
    (s s' : StudentDoc)
    (h : applyClassUpdate db classCode semester s = .ok s') :
    s'._id = s._id ∧ s'.rollNo = s.rollNo := by
  cases classCode with
  | none =>
    simp only [applyClassUpdate] at h
    cases h
    exact ⟨rfl, rfl⟩
  | some cc =>
    cases semester with
    | none =>
      simp only [applyClassUpdate] at h
      cases h
      exact ⟨rfl, rfl⟩
    | some sem =>
      simp only [applyClassUpdate] at h
      cases hfind : db.classes.find? (fun c =>
          c.classCode == cc && c.semester == some sem) with
      | none =>
        rw [hfind] at h
        simp at h
      | some cls =>
        rw [hfind] at h
        simp only [Except.ok.injEq] at h
        rw [← h]
        exact ⟨rfl, rfl⟩

theorem applyImageUpdate_frame (ml : MlOutcome) (imageFilename : Option String)
    (s s' : StudentDoc)
    (h : applyImageUpdate ml imageFilename s = .ok s') :
    s'._id = s._id ∧ s'.rollNo = s.rollNo := by
  cases imageFilename with
  | none =>
    simp only [applyImageUpdate] at h
    cases h
    exact ⟨rfl, rfl⟩
  | some f =>
    simp only [applyImageUpdate] at h
    cases hml : mlCallResultUpdate ml with
    | error e =>
      rw [hml] at h
      simp at h
    | ok emb =>
      rw [hml] at h
      simp only [Except.ok.injEq] at h
      rw [← h]
      exact ⟨rfl, rfl⟩

theorem applyNamePhone_frame (name phoneNumber : Option String)
    (s : StudentDoc) :
    (applyNamePhone name phoneNumber s)._id = s._id ∧
    (applyNamePhone name phoneNumber s).rollNo = s.rollNo := by
  cases name <;> cases phoneNumber <;> simp [applyNamePhone]

theorem map_updateFirst_of_find {α β : Type} (proj : α → β) (p : α → Bool)
    (v a : α) :
    ∀ l : List α, l.find? p = some a → proj v = proj a →
      (updateFirst p (fun _ => v) l).map proj = l.map proj := by
  intro l
  induction l with
  | nil => intro h _; simp at h
  | cons x xs ih =>
    intro hfind hproj
    by_cases hx : p x = true
    · have hxa : x = a := by
        simp only [List.find?, hx] at hfind
        exact Option.some.inj hfind
      simp only [updateFirst, hx, if_true, List.map_cons]
      rw [hproj, hxa]
    · have hfind' : xs.find? p = some a := by
        simp only [List.find?, eq_false_of_ne_true hx] at hfind
        exact hfind
      simp only [updateFirst, eq_false_of_ne_true hx, Bool.false_eq_true,
        if_false, List.map_cons]
      rw [ih hfind' hproj]

/-- Claim C9 (implicit): updateStudentById never changes any stored
credential hash nor any student roll identifier, for every payload —
including payloads that supply password or rollNo values, which the
controller forwards but the service never applies. -/
theorem updateStudentById_frame (db : SDb) (studentId : Nat)
    (d : UpdateStudentData) (ml : MlOutcome) :
    (updateStudentById db studentId d ml).2.users.map
        (fun u => (u._id, u.password))
      = db.users.map (fun u => (u._id, u.password)) ∧
    (updateStudentById db studentId d ml).2.students.map
        (fun s => (s._id, s.rollNo))
      = db.students.map (fun s => (s._id, s.rollNo)) := by
  cases hfs : db.students.find? (fun s => s._id == studentId) with
  | none =>
    simp only [updateStudentById, hfs]
    exact ⟨trivial, trivial⟩
  | some student0 =>
    cases hfu : db.users.find? (fun u => u._id == student0.user) with
    | none =>
      simp only [updateStudentById, hfs, hfu]
      exact ⟨trivial, trivial⟩
    | some user0 =>
      cases hemail : applyEmailUpdate db user0._id d.email user0 with
      | error e =>
        simp only [updateStudentById, hfs, hfu, hemail]
        exact ⟨trivial, trivial⟩
      | ok user1 =>
        cases husr : applyUsernameUpdate db user0._id d.username user1 with
        | error e =>
          simp only [updateStudentById, hfs, hfu, hemail, husr]
          exact ⟨trivial, trivial⟩
        | ok user2 =>
          cases hcls : applyClassUpdate db d.classCode d.semester student0 with
          | error e =>
            simp only [updateStudentById, hfs, hfu, hemail, husr, hcls]
            exact ⟨trivial, trivial⟩
          | ok student1 =>
            cases himg : applyImageUpdate ml d.imageFilename student1 with
            | error e =>
              simp only [updateStudentById, hfs, hfu, hemail, husr, hcls, himg]
              exact ⟨trivial, trivial⟩
            | ok student2 =>
              simp only [updateStudentById, hfs, hfu, hemail, husr, hcls, himg]
              have hu1 := applyEmailUpdate_frame db user0._id d.email
                user0 user1 hemail
              have hu2 := applyUsernameUpdate_frame db user0._id d.username
                user1 user2 husr
              have hs1 := applyClassUpdate_frame db d.classCode d.semester
                student0 student1 hcls
              have hs2 := applyImageUpdate_frame ml d.imageFilename
                student1 student2 himg
              have hs3 := applyNamePhone_frame d.name d.phoneNumber student2
              constructor
              · apply map_updateFirst_of_find _ _ _ user0 db.users hfu
                simp only [Prod.mk.injEq]
                exact ⟨hu2.1.trans hu1.1, hu2.2.trans hu1.2⟩
              · apply map_updateFirst_of_find _ _ _ student0 db.students hfs
                simp only [Prod.mk.injEq]
                exact ⟨(hs3.1.trans hs2.1).trans hs1.1,
                  (hs3.2.trans hs2.2).trans hs1.2⟩

/-! ## Domain catalog (classService.deleteClass, subjectService.deleteSubject) -/

/-- A Subject document. The source schema names the class reference
field class, a Lean keyword, rendered here as classRef. -/
structure SubjectDoc where
  _id : Nat
  name : String
  subjectCode : String
  classRef : Nat
deriving Repr, DecidableEq

/-- The collections visible to the class and subject services (their
modules import only the Class and Subject models). -/
structure CDb where
  classes : List ClassDoc
  subjects : List SubjectDoc
deriving Repr, DecidableEq

/-- String.prototype.startsWith, modelled on the character list. -/
def strStartsWith (s p : String) : Bool := p.data.isPrefixOf s.data

/-- classService.deleteClass: find the class, count the subjects that
reference it, block the deletion with the counted message when the
count is positive, else delete. The thrown errors are plain Errors with
no statusCode. -/
def deleteClass (db : CDb) (classId : Nat) : Except AppError String × CDb :=
  match db.classes.find? (fun c => c._id == classId) with
  | none =>
    (.error { message := "Class not found.", statusCode := none }, db)
  | some classToDelete =>
    let subjectCount := (db.subjects.filter (fun s => s.classRef == classId)).length
    if subjectCount > 0 then
      (.error { message := "Cannot delete class \"" ++ classToDelete.name
                  ++ "\". It is referenced by " ++ toString subjectCount
                  ++ " subject(s).",
                statusCode := none }, db)
    else
      (.ok "Class deleted successfully.",
       { db with classes := db.classes.eraseP (fun c => c._id == classId) })

/-- An HTTP response of the admin controller. -/
structure HttpResponse where
  status : Nat
  message : String
deriving Repr, DecidableEq

/-- adminController.deleteClass: dispatch on the service error message
(the ObjectId-format pre-check concerns the raw string route parameter,
which the Nat id model leaves upstream). -/
def deleteClassController (db : CDb) (classId : Nat) : HttpResponse × CDb :=
  match deleteClass db classId with
  | (.ok r, db') => ({ status := 200, message := r }, db')
  | (.error e, db') =>
    if strStartsWith e.message "Class not found" then
      ({ status := 404, message := e.message }, db')
    else if strStartsWith e.message "Cannot delete class" then
      ({ status := 400, message := e.message }, db')
    else
      ({ status := 500, message := "Server error while deleting class." }, db')

theorem isPrefixOf_append_of_le (l₁ : List Char) :
    ∀ (l₂ r : List Char), l₁.length ≤ l₂.length →
      (l₁.isPrefixOf (l₂ ++ r)) = l₁.isPrefixOf l₂ := by
  induction l₁ with
  | nil => intro l₂ r _; simp [List.isPrefixOf]
  | cons a as ih =>
    intro l₂ r hle
    cases l₂ with
    | nil => simp at hle
    | cons b bs =>
      simp only [List.cons_append, List.isPrefixOf, List.append_eq]
      rw [ih bs r (by simpa using hle)]

theorem blocked_msg_startsWith (name rest : String) :
    strStartsWith ("Cannot delete class \"" ++ name ++ rest)
      "Cannot delete class" = true := by
  unfold strStartsWith
  rw [String.data_append, String.data_append, List.append_assoc]
  rw [isPrefixOf_append_of_le _ _ _ (by decide)]
  decide

theorem blocked_msg_not_notFound (name rest : String) :
    strStartsWith ("Cannot delete class \"" ++ name ++ rest)
      "Class not found" = false := by
  unfold strStartsWith
  rw [String.data_append, String.data_append, List.append_assoc]
  rw [isPrefixOf_append_of_le _ _ _ (by decide)]
  decide

/-- Claim C5: when the class resolved by the id is referenced by n > 0
subjects, the controller answers 400 with the message naming the class
and the count n, and nothing is deleted; with zero referencing subjects
the deletion proceeds. -/
theorem deleteClass_reference_check (db : CDb) (classId : Nat) (c : ClassDoc)
    (hfind : db.classes.find? (fun x => x._id == classId) = some c) :
    (0 < (db.subjects.filter (fun s => s.classRef == classId)).length →
      (deleteClassController db classId).1.status = 400 ∧
      (deleteClassController db classId).1.message
        = "Cannot delete class \"" ++ c.name ++ "\". It is referenced by "
          ++ toString (db.subjects.filter (fun s => s.classRef == classId)).length
          ++ " subject(s)." ∧
      (deleteClassController db classId).2 = db) ∧
    ((db.subjects.filter (fun s => s.classRef == classId)).length = 0 →
      (deleteClassController db classId).1.status = 200 ∧
      (deleteClassController db classId).2.classes
        = db.classes.eraseP (fun x => x._id == classId)) := by
  constructor
  · intro hn
    have hsvc : deleteClass db classId
        = (.error
            { message :=
                "Cannot delete class \"" ++ c.name
                  ++ ("\". It is referenced by "
                    ++ (toString (db.subjects.filter
                          (fun s => s.classRef == classId)).length
                      ++ " subject(s).")),
              statusCode := none }, db) := by
      simp only [deleteClass, hfind]
      rw [if_pos hn]
      simp [String.append_assoc]
    refine ⟨?_, ?_, ?_⟩
    all_goals
      simp only [deleteClassController, hsvc, blocked_msg_startsWith,
        blocked_msg_not_notFound, Bool.false_eq_true, if_false, if_true]
    all_goals simp [String.append_assoc]
  · intro hn
    have hsvc : deleteClass db classId
        = (.ok "Class deleted successfully.",
           { db with classes := db.classes.eraseP (fun x => x._id == classId) }) := by
      simp only [deleteClass, hfind]
      rw [if_neg (by omega)]
    constructor <;> simp only [deleteClassController, hsvc]

/-- Database for the C5 witness: one class referenced by two subjects,
matching the spec scenario of a deletion blocked by the count 2. -/
def c5Db : CDb :=
  { classes := [{ _id := 0, name := "CS", classCode := "CS-5",
                  semester := some "5" }],
    subjects := [{ _id := 1, name := "Algo", subjectCode := "A1", classRef := 0 },
                 { _id := 2, name := "OS", subjectCode := "O1", classRef := 0 }] }

/-- Witness for C5 at the concrete input: the blocked branch names the
class and the count 2, with no deletion. -/
theorem deleteClass_reference_check_witness :
    (deleteClassController c5Db 0).1.status = 400 ∧
    (deleteClassController c5Db 0).1.message
      = "Cannot delete class \"" ++ "CS" ++ "\". It is referenced by "
        ++ toString (c5Db.subjects.filter (fun s => s.classRef == 0)).length
        ++ " subject(s)." ∧
    (deleteClassController c5Db 0).2 = c5Db :=
  (deleteClass_reference_check c5Db 0
      { _id := 0, name := "CS", classCode := "CS-5", semester := some "5" }
      (by decide)).1 (by decide)

/-- subjectService.deleteSubject: find the subject and delete it, with
no referential check of any kind (the module sees only the Subject and
Class collections); a missing id raises the plain not-found error. -/
def deleteSubject (db : CDb) (subjectId : Nat) : Except AppError String × CDb :=
  match db.subjects.find? (fun s => s._id == subjectId) with
  | none =>
    (.error { message := "Subject not found.", statusCode := none }, db)
  | some _ =>
    (.ok "Subject deleted successfully.",
     { db with subjects := db.subjects.eraseP (fun s => s._id == subjectId) })

/-- Claim C10 (implicit): deleteSubject deletes unconditionally — for
every store in which the id resolves, including stores where arbitrary
other entities reference the subject, the deletion succeeds with no
precondition check; the only failure is a nonexistent id, which raises
the not-found error and deletes nothing. -/
theorem deleteSubject_no_referential_check (db : CDb) (subjectId : Nat) :
    ((∃ s ∈ db.subjects, s._id = subjectId) →
      (deleteSubject db subjectId).1 = .ok "Subject deleted successfully." ∧
      (deleteSubject db subjectId).2.subjects
        = db.subjects.eraseP (fun s => s._id == subjectId) ∧
      (deleteSubject db subjectId).2.classes = db.classes) ∧
    ((∀ s ∈ db.subjects, s._id ≠ subjectId) →
      deleteSubject db subjectId
        = (.error { message := "Subject not found.", statusCode := none }, db)) := by
  constructor
  · intro hex
    obtain ⟨s0, hs0, hid⟩ := hex
    have : db.subjects.find? (fun s => s._id == subjectId) ≠ none := by
      intro hnone
      have := List.find?_eq_none.mp hnone s0 hs0
      simp [hid] at this
    cases hfind : db.subjects.find? (fun s => s._id == subjectId) with
    | none => exact absurd hfind this
    | some sfound =>
      refine ⟨?_, ?_, ?_⟩ <;> simp only [deleteSubject, hfind]
  · intro hall
    have hfind : db.subjects.find? (fun s => s._id == subjectId) = none := by
      rw [List.find?_eq_none]
      intro s hs
      simp only [beq_iff_eq]
      exact hall s hs
    simp only [deleteSubject, hfind]

/-- Witness for C10 at a concrete input: the subject exists with two
sibling entities referencing nothing relevant, and deletion succeeds. -/
theorem deleteSubject_no_referential_check_witness :
    (deleteSubject c5Db 1).1 = .ok "Subject deleted successfully." ∧
    (deleteSubject c5Db 1).2.subjects
      = c5Db.subjects.eraseP (fun s => s._id == 1) ∧
    (deleteSubject c5Db 1).2.classes = c5Db.classes :=
  (deleteSubject_no_referential_check c5Db 1).1
    ⟨{ _id := 1, name := "Algo", subjectCode := "A1", classRef := 0 },
     by decide, rfl⟩

/-! ## Staged schema semantics of the ledger write paths

The AttendanceRecord schema in src/models/AttendanceRecord.js declares
the paths student, subject, teacher (required), date, time and status
(required, enum Present/Absent) — there is no markedBy path — while the
attendance service builds its rows with markedBy and populates the
markedBy path. This section models the consequences for the two ledger
write paths against that schema: mongoose strict mode drops paths
outside the schema from a document before validation, a document
missing a required path fails insertMany validation (a ValidationError,
which does not carry the duplicate-key code 11000), and populating a
path outside the schema raises the strict-populate error. Documents are
modelled as (path, value) lists so the stripping is computed from the
schema path list rather than asserted. -/

/-- The paths declared by the staged attendanceRecordSchema. -/
def stagedSchemaPaths : List String :=
  ["student", "subject", "teacher", "date", "time", "status"]

/-- The required paths of the staged attendanceRecordSchema. -/
def stagedRequiredPaths : List String :=
  ["student", "subject", "teacher", "date", "status"]

/-- The row built by saveAttendanceRecords for one list item, as a
(path, value) document: note markedBy, and no teacher. -/
def serviceRow (a : SaveArgs) (item : AttListItem) : List (String × String) :=
  [("student", item._id), ("subject", a.subjectId), ("markedBy", a.teacherId),
   ("date", a.date), ("time", a.time), ("status", item.status)]

/-- Mongoose strict mode: paths outside the schema are dropped from a
document before it is validated or written. -/
def stripStrict (doc : List (String × String)) : List (String × String) :=
  doc.filter (fun kv => stagedSchemaPaths.contains kv.1)

/-- Whether a document carries the given path. -/
def hasPath (doc : List (String × String)) (p : String) : Bool :=
  doc.any (fun kv => kv.1 == p)

/-- The value of a path in a document, when present. -/
def getPath (doc : List (String × String)) (p : String) : Option String :=
  Option.map Prod.snd (doc.find? (fun kv => kv.1 == p))

/-- Document validation against the staged schema: every required path
is present and the status enum holds. -/
def validatesStagedSchema (doc : List (String × String)) : Bool :=
  stagedRequiredPaths.all (hasPath doc)
    && doc.all (fun kv => kv.1 != "status" || (kv.2 == "Present" || kv.2 == "Absent"))

/-- The unique-index key (student, subject, date) of a document. -/
def docKey (doc : List (String × String)) :
    Option String × Option String × Option String :=
  (getPath doc "student", getPath doc "subject", getPath doc "date")

/-- Unordered insert of already-validated documents against the unique
(student, subject, date) index: ledger, inserted documents, and whether
any duplicate-key failure occurred. -/
def insertValidStaged :
    List (List (String × String)) → List (List (String × String)) →
      List (List (String × String)) × List (List (String × String)) × Bool
  | led, [] => (led, [], false)
  | led, d :: ds =>
    if led.any (fun r => docKey r == docKey d) then
      let r := insertValidStaged led ds
      (r.1, r.2.1, true)
    else
      let r := insertValidStaged (led ++ [d]) ds
      (r.1, d :: r.2.1, r.2.2)

/-- Result of insertMany against the staged schema. -/
structure StagedInsertResult where
  ledger : List (List (String × String))
  inserted : List (List (String × String))
  validationFailed : Bool
  dupFailed : Bool
deriving Repr, DecidableEq

/-- insertMany with ordered false against the staged schema: each
document is stripped to the schema paths and validated; the valid
subset is inserted under the unique index; any validation failure
rejects the call with a ValidationError, which carries no duplicate-key
code. -/
def insertManyStaged (led : List (List (String × String)))
    (docs : List (List (String × String))) : StagedInsertResult :=
  let stripped := docs.map stripStrict
  let valid := stripped.filter validatesStagedSchema
  let r := insertValidStaged led valid
  { ledger := r.1, inserted := r.2.1,
    validationFailed := !(stripped.all validatesStagedSchema),
    dupFailed := r.2.2 }

/-- saveAttendanceRecords against the staged schema: the catch maps
error code 11000 to the 409 conflict and every other failure — in
particular a ValidationError — to the generic message with no
statusCode. -/
def saveAttendanceRecordsStaged (a : SaveArgs)
    (led : List (List (String × String))) :
    Except AppError (List (List (String × String)))
      × List (List (String × String)) :=
  let docs := a.attendanceList.map (serviceRow a)
  if docs.length = 0 then
    (.error { message := "No attendance records to save.", statusCode := none },
     led)
  else
    let r := insertManyStaged led docs
    if r.validationFailed then
      (.error { message := "An error occurred while saving the attendance records.",
                statusCode := none }, r.ledger)
    else if r.dupFailed then
      (.error duplicateAttendanceError, r.ledger)
    else
      (.ok r.inserted, r.ledger)

theorem serviceRow_no_teacher (a : SaveArgs) (item : AttListItem) :
    hasPath (stripStrict (serviceRow a item)) "teacher" = false := by
  simp [serviceRow, stripStrict, hasPath, stagedSchemaPaths]

theorem serviceRow_never_validates (a : SaveArgs) (item : AttListItem) :
    validatesStagedSchema (stripStrict (serviceRow a item)) = false := by
  have h := serviceRow_no_teacher a item
  simp [validatesStagedSchema, stagedRequiredPaths, h]

/-- Claim C1 (code_bug evidence): against the staged schema the claimed
behaviour never happens. Every row the service builds loses its
markedBy path to strict mode and then fails validation on the required
teacher path, so for every non-empty batch — duplicates present or not
— insertMany rejects with a ValidationError: the call raises the
generic statusCode-less message, never the 409 conflict, and inserts
nothing (the ledger is unchanged, so in particular no fresh row of the
batch is written). -/
theorem saveAttendanceRecords_staged_validation_rejects
    (a : SaveArgs) (led : List (List (String × String)))
    (hne : a.attendanceList ≠ []) :
    (saveAttendanceRecordsStaged a led).1
      = .error { message := "An error occurred while saving the attendance records.",
                 statusCode := none } ∧
    (saveAttendanceRecordsStaged a led).2 = led := by
  have hall : ∀ doc ∈ (a.attendanceList.map (serviceRow a)).map stripStrict,
      validatesStagedSchema doc = false := by
    intro doc hdoc
    obtain ⟨row, hrow, hrfl⟩ := List.mem_map.mp hdoc
    obtain ⟨item, _hitem, hrfl2⟩ := List.mem_map.mp hrow
    rw [← hrfl, ← hrfl2]
    exact serviceRow_never_validates a item
  have hvalid : ((a.attendanceList.map (serviceRow a)).map stripStrict).filter
      validatesStagedSchema = [] :=
    List.filter_eq_nil_iff.mpr (fun d hd => by simp [hall d hd])
  have hnotall : ((a.attendanceList.map (serviceRow a)).map stripStrict).all
      validatesStagedSchema = false := by
    rcases hx : a.attendanceList with _ | ⟨it, rest⟩
    · exact absurd hx hne
    · simp [hx, serviceRow_never_validates]
  have hlen : ¬((a.attendanceList.map (serviceRow a)).length = 0) := by
    simp only [List.length_map, List.length_eq_zero]
    exact hne
  simp only [saveAttendanceRecordsStaged, hlen, if_false, insertManyStaged,
    hvalid, hnotall, insertValidStaged, Bool.not_false, if_true]
  exact ⟨trivial, trivial⟩

/-- The staged ledger for the C1 failing input: it already holds a
valid record for (s1, sub, 8/11/2025). -/
def c1StagedLed : List (List (String × String)) :=
  [[("student", "s1"), ("subject", "sub"), ("teacher", "t"),
    ("date", "8/11/2025"), ("time", "9:00"), ("status", "Present")]]

/-- Witness for the C1 evidence at the failing input: the batch with a
duplicate row and a fresh row gets the generic validation error and
nothing — not even the fresh row — is inserted. -/
theorem saveAttendanceRecords_staged_validation_rejects_witness :
    (saveAttendanceRecordsStaged c1Args c1StagedLed).1
      = .error { message := "An error occurred while saving the attendance records.",
                 statusCode := none } ∧
    (saveAttendanceRecordsStaged c1Args c1StagedLed).2 = c1StagedLed :=
  saveAttendanceRecords_staged_validation_rejects c1Args c1StagedLed (by decide)

/-- The strict-populate check: populating a path outside the schema
raises the strict-populate error, a plain error with no statusCode. -/
def strictPopulateCheck (paths : List String) : Except AppError Unit :=
  match paths.find? (fun p => !(stagedSchemaPaths.contains p)) with
  | some p =>
    .error { message := "Cannot populate path " ++ p
               ++ " because it is not in your schema",
             statusCode := none }
  | none => .ok ()

/-- Sets (or adds) a path on a document, as $set does. -/
def setPath (doc : List (String × String)) (p v : String) :
    List (String × String) :=
  if hasPath doc p then
    doc.map (fun kv => if kv.1 == p then (kv.1, v) else kv)
  else
    doc ++ [(p, v)]

/-- updateAttendanceRecord against the staged schema. The filter
{_id, markedBy} names a path outside the schema; depending on the
mongoose strictQuery setting the unknown path is either stripped from
the filter (leaving an id-only match) or passed through (matching only
documents that themselves carry a markedBy path) — the Boolean
parameter covers both readings. The update applies before the chained
populates run; the populate on markedBy then fails the strict-populate
check, and the catch re-raises any statusCode-less error as the
generic message. -/
def updateAttendanceRecordStaged (strictQueryStrips : Bool)
    (recordId newStatus teacherId : String)
    (records : List (List (String × String))) :
    Except AppError (List (String × String))
      × List (List (String × String)) :=
  let rowMatch : List (String × String) → Bool := fun r =>
    getPath r "_id" == some recordId
      && (if strictQueryStrips then true
          else getPath r "markedBy" == some teacherId)
  let found := records.find? rowMatch
  let records' :=
    match found with
    | some _ =>
      updateFirst rowMatch (fun r => setPath r "status" newStatus) records
    | none => records
  match strictPopulateCheck ["student", "markedBy"] with
  | .error e =>
    if e.statusCode.isSome then (.error e, records')
    else
      (.error { message := "An error occurred while updating the record.",
                statusCode := none }, records')
  | .ok _ =>
    match found with
    | some r => (.ok (setPath r "status" newStatus), records')
    | none =>
      (.error { message := "Record not found or you do not have permission to edit it.",
                statusCode := some 404 }, records')

/-- Claim C7 (code_bug evidence): against the staged schema the update
path never produces either outcome the claim describes. For both
strictQuery readings and every record id, status, caller and collection
state — including the claim's success case of an existing record
amended by its own recorder — the populate on markedBy, a path outside
the schema, fails the strict-populate check, and the call raises the
generic statusCode-less error: never the merged 404 and never an
updated record. -/
theorem updateAttendanceRecord_staged_strict_populate
    (strictQueryStrips : Bool) (recordId newStatus teacherId : String)
    (records : List (List (String × String))) :
    (updateAttendanceRecordStaged strictQueryStrips recordId newStatus
        teacherId records).1
      = .error { message := "An error occurred while updating the record.",
                 statusCode := none } := by
  rfl
